import Mathlib

/-!
# Verification of the Wick Editor `EditorCore` command layer

A shallow embedding of `src/Editor/EditorCore.jsx` (the control layer of the
Wick animation editor).  Each handler of the source file is modelled as a pure
Lean function from the data it reads (the shared mutable project state, the
results delivered by engine callbacks) to the new state it writes and the list
of observable effects it emits (toasts, modals, change notifications, file
saves, console output, network fetches).

The external `Wick` engine, the paper.js view and the export/import modules
are opaque collaborators of the source file; calls into them appear here as
`Effect.delegate` markers, and values they hand back (undo results, imported
assets, parsed hostnames) are parameters of the embedded functions.
-/

namespace WickEditor

/-- Observable effects emitted by the editor command handlers: toasts, toast
updates, change notifications (`projectDidChange`), modal openings, wait
overlay changes, console output, `saveAs` file downloads, React state updates,
delegations to external modules, network fetches and user-callback
invocations. -/
inductive Effect where
  | toast (message kind : String)
  | updateToast (kind message : String)
  | projectDidChange (skipHistory : Bool) (actionName : String)
  | openModal (modalName : String)
  | showWaitOverlay
  | hideWaitOverlay
  | consoleError (message : String)
  | consoleLog (message : String)
  | saveAs (filename : String)
  | setState (fields : String)
  | delegate (callee : String)
  | fetchURL (url : String)
  | invokeCallback
deriving DecidableEq, Repr

/-- Values living in the JavaScript project/selection objects: `undefined`,
booleans, numbers, strings and arrays (the cases the selection attributes can
take).  `arrV` is the case the source tests with `instanceof Array`. -/
inductive JsValue where
  | undefinedV
  | boolV (b : Bool)
  | numV (n : Int)
  | strV (s : String)
  | arrV (xs : List JsValue)

/-- JavaScript `a || b` for a possibly-absent string `a`: the empty string is
falsy, so it falls through to `b`, as does `undefined`/`null` (`none`). -/
def jsOr (a : Option String) (b : String) : String :=
  match a with
  | none => b
  | some s => if s = "" then b else s

/-! ## `getSelectionAttribute` (source lines 382-398) -/

/-- Embedding of `getSelectionAttribute`.  `selection` models the
`this.project.selection` object as a map from attribute names to values.  The
source reads `this.project.selection[attributeName]`; if the value is an
`Array` it returns `undefined` for length 0 and the first element otherwise
(both for length 1 and for length ≥ 2), and returns a non-array value
unchanged. -/
def getSelectionAttribute (selection : String → JsValue) (attributeName : String) : JsValue :=
  match selection attributeName with
  | .arrV xs =>
      if xs.length = 0 then .undefinedV
      else if xs.length = 1 then xs.headD .undefinedV
      else xs.headD .undefinedV
  | .undefinedV => .undefinedV
  | .boolV b => .boolV b
  | .numV n => .numV n
  | .strV s => .strV s

/-! ## `undoAction` / `redoAction` (source lines 82-99) -/

/-- Embedding of `undoAction`.  `undoSucceeded` is the boolean returned by the
engine call `this.project.undo()`. -/
def undoAction (undoSucceeded : Bool) : List Effect :=
  if !undoSucceeded then [.toast "Nothing to undo." "warning"]
  else [.projectDidChange true "Undo"]

/-- Embedding of `redoAction`.  `redoSucceeded` is the boolean returned by the
engine call `this.project.redo()`. -/
def redoAction (redoSucceeded : Bool) : List Effect :=
  if !redoSucceeded then [.toast "Nothing to redo." "warning"]
  else [.projectDidChange true "Redo"]

/-! ## `createImageFromAsset` (source lines 755-785) -/

/-- The dynamic subtype of the object found in `Wick.ObjectCache` for the
given uuid, as tested by the `instanceof` chain of `createImageFromAsset`.
The Wick engine asset classes `ImageAsset`, `ClipAsset` and `SVGAsset` are
distinct (sibling) classes, so the subtype is one of four disjoint cases. -/
inductive AssetKind where
  | imageAsset
  | clipAsset
  | svgAsset
  | otherObject
deriving DecidableEq, Repr

/-- The project creation method invoked by `createImageFromAsset`. -/
inductive CreateCall where
  | createImagePathFromAsset
  | createClipInstanceFromAsset
  | createSVGInstanceFromAsset
deriving DecidableEq, Repr

/-- Embedding of the dispatch of `createImageFromAsset`: the `instanceof`
chain picks at most one creation call from the asset's subtype, and logs a
console error when the object is none of the three asset kinds.  The screen
to canvas coordinate conversion is delegated to paper.js and does not affect
the dispatch. -/
def createImageFromAsset (obj : AssetKind) : Option CreateCall × List Effect :=
  if obj = .imageAsset then (some .createImagePathFromAsset, [])
  else if obj = .clipAsset then (some .createClipInstanceFromAsset, [])
  else if obj = .svgAsset then (some .createSVGInstanceFromAsset, [])
  else (none, [.consoleError "object is not an ImageAsset or a ClipAsset"])

/-! ## `updateProjectSettings` (source lines 713-730) -/

/-- The `validKeys` list of `updateProjectSettings`: the only project
settings the handler will ever write. -/
def validKeys : List String := ["name", "width", "height", "backgroundColor", "framerate"]

/-- One iteration of the `Object.keys(newSettings).forEach` loop of
`updateProjectSettings`: skip keys outside `validKeys`
(`validKeys.indexOf(key) === -1`), and write the key and raise the `updated`
flag only when the new value differs (`!==`) from the current project value.
The accumulator pairs the project field map with the `updated` flag. -/
def settingsStep {V : Type} [DecidableEq V]
    (acc : (String → V) × Bool) (kv : String × V) : (String → V) × Bool :=
  if validKeys.contains kv.1 = false then acc
  else if acc.1 kv.1 ≠ kv.2 then
    ((fun k => if k = kv.1 then kv.2 else acc.1 k), true)
  else acc

/-- Embedding of `updateProjectSettings`.  The project is modelled as a map
from field names to values `V` (JS compares settings values with `!==`, here
decidable equality); `newSettings` is the key/value list of the input object,
in `Object.keys` order (keys of a JS object are distinct).  Returns the new
project map and the `updated` flag. -/
def updateProjectSettings {V : Type} [DecidableEq V]
    (project : String → V) (newSettings : List (String × V)) : (String → V) × Bool :=
  newSettings.foldl settingsStep (project, false)

/-- The change notification of `updateProjectSettings`: `projectDidChange`
fires exactly when the `updated` flag was raised. -/
def updateProjectSettingsEffects {V : Type} [DecidableEq V]
    (project : String → V) (newSettings : List (String × V)) : List Effect :=
  if (updateProjectSettings project newSettings).2 then
    [.projectDidChange false "Update Project Settings"]
  else []

/-! ## Export handlers (source lines 896-1144 and 1552-1560)

Each handler is split as in the source: the effects it emits synchronously
when invoked, and the effects its completion callback emits when the external
export module hands the produced file back.  `ts` stands for the string
returned by the external `timeStamp()` helper, and `outputName` for the
handler's `args.name || this.project.name` computation (`jsOr`). -/

/-- The eight file extensions of the files produced by the export handlers. -/
def exportExtensions : List String :=
  [".wick", ".gif", ".mp4", ".svg", ".zip", ".html", ".wav", ".wickobj"]

/-- The filename ends with one of the recognised export extensions. -/
def endsWithAnExportExtension (filename : String) : Prop :=
  ∃ ext ∈ exportExtensions, ∃ s, filename = s ++ ext

/-- Whether a trace opens some modal. -/
def opensAModal (trace : List Effect) : Bool :=
  trace.any fun e =>
    match e with
    | .openModal _ => true
    | _ => false

/-- Synchronous effects of `exportProjectAsWickFile`. -/
def exportProjectAsWickFile : List Effect :=
  [.showWaitOverlay,
   .toast "Exporting project as a .wick file..." "info",
   .delegate "Wick.WickFile.toWickFile"]

/-- Effects of the `toWickFile` callback of `exportProjectAsWickFile`;
`fileDefined` models `file === undefined` being false. -/
def exportProjectAsWickFile_onFile (projectName ts : String) (fileDefined : Bool) : List Effect :=
  if !fileDefined then
    [.updateToast "error" "Could not export .wick file.", .hideWaitOverlay]
  else
    [.updateToast "success" "Successfully saved .wick file.",
     .saveAs (projectName ++ ts ++ ".wick"),
     .hideWaitOverlay]

/-- Synchronous effects of `exportProjectAsAnimatedGIF`. -/
def exportProjectAsAnimatedGIF : List Effect :=
  [.openModal "ExportMedia",
   .setState "renderProgress, renderType, renderStatusMessage",
   .toast "Exporting animated GIF..." "info",
   .delegate "GIFExport.createAnimatedGIFFromProject"]

/-- Effects of the `onFinish` callback of `exportProjectAsAnimatedGIF`. -/
def exportProjectAsAnimatedGIF_onFinish (outputName : String) : List Effect :=
  [.saveAs (outputName ++ ".gif"),
   .updateToast "success" "Successfully created .gif file.",
   .setState "renderStatusMessage, renderProgress"]

/-- Synchronous effects of `exportProjectAsImageSequence`. -/
def exportProjectAsImageSequence : List Effect :=
  [.openModal "ExportMedia",
   .setState "renderProgress, renderType, renderStatusMessage, exporting",
   .toast "Exporting image sequence..." "info",
   .delegate "Wick.ImageSequence.toPNGSequence"]

/-- Effects of the `toPNGSequence` completion callback of
`exportProjectAsImageSequence` (the wrapper hides the wait overlay, then the
local `onFinish` runs). -/
def exportProjectAsImageSequence_onFinish (projectName : String) : List Effect :=
  [.hideWaitOverlay,
   .updateToast "success" "Successfully created image sequence.",
   .saveAs (projectName ++ "_imageSequence.zip"),
   .setState "exporting"]

/-- Synchronous effects of `exportProjectAsVideo`. -/
def exportProjectAsVideo : List Effect :=
  [.openModal "ExportMedia",
   .setState "renderProgress, renderType, renderStatusMessage, exporting",
   .toast "Exporting video..." "info",
   .delegate "VideoExport.renderVideo"]

/-- Effects of the `renderVideo` completion callback of
`exportProjectAsVideo` (the saving of the `.mp4` file happens inside the
external `VideoExport` module). -/
def exportProjectAsVideo_onFinish : List Effect :=
  [.hideWaitOverlay,
   .updateToast "success" "Successfully created .mp4 file.",
   .consoleLog "Video Render Complete: ",
   .setState "exporting"]

/-- Synchronous effects of `exportProjectAsImageSVG`. -/
def exportProjectAsImageSVG : List Effect :=
  [.openModal "ExportMedia",
   .setState "renderProgress, renderType, renderStatusMessage",
   .toast "Exporting svg..." "info",
   .delegate "Wick.SVGFile.toSVGFile"]

/-- Effects of the `toSVGFile` completion callback of
`exportProjectAsImageSVG` (the wrapper hides the wait overlay, then the local
`onFinish` runs; its success toast text says `.wick` in the source). -/
def exportProjectAsImageSVG_onFile (projectName ts : String) : List Effect :=
  [.hideWaitOverlay,
   .updateToast "success" "Successfully saved .wick file.",
   .saveAs (projectName ++ ts ++ ".svg"),
   .hideWaitOverlay]

/-- Synchronous effects of `exportProjectAsStandaloneZip`: a toast and the
delegation, with no modal opened. -/
def exportProjectAsStandaloneZip : List Effect :=
  [.toast "Exporting project as ZIP..." "info",
   .delegate "Wick.ZIPExport.bundleProject"]

/-- Effects of the `bundleProject` callback of
`exportProjectAsStandaloneZip`. -/
def exportProjectAsStandaloneZip_onBlob (outputName : String) : List Effect :=
  [.updateToast "success" "Successfully created .zip file.",
   .saveAs (outputName ++ ".zip")]

/-- Synchronous effects of `exportProjectAsStandaloneHTML`. -/
def exportProjectAsStandaloneHTML : List Effect :=
  [.toast "Exporting project as HTML..." "info",
   .delegate "Wick.HTMLExport.bundleProject"]

/-- Effects of the `bundleProject` callback of
`exportProjectAsStandaloneHTML`. -/
def exportProjectAsStandaloneHTML_onHtml (outputName : String) : List Effect :=
  [.updateToast "success" "Successfully created .html file.",
   .saveAs (outputName ++ ".html")]

/-- Synchronous effects of `exportProjectAsAudioTrack`. -/
def exportProjectAsAudioTrack : List Effect :=
  [.delegate "AudioExport.generateAudioFile"]

/-- Effects of the promise resolution of `exportProjectAsAudioTrack`. -/
def exportProjectAsAudioTrack_onResult : List Effect :=
  [.saveAs "audiotrack.wav"]

/-- Synchronous effects of `exportSelectedClip`: nothing selected or a
non-clip selection returns early with no effect. -/
def exportSelectedClip (hasSelectedObject isClip : Bool) : List Effect :=
  if !hasSelectedObject then []
  else if !isClip then []
  else [.delegate "Wick.WickObjectFile.toWickObjectFile"]

/-- Effects of the `toWickObjectFile` callback of `exportSelectedClip`;
`identifier` is the clip's identifier (`clip.identifier || 'object'`). -/
def exportSelectedClip_onFile (identifier : Option String) : List Effect :=
  [.saveAs (jsOr identifier "object" ++ ".wickobj")]

/-! ## Import handlers (source lines 812-823 and 1150-1161) -/

/-- Synchronous effects of `importProjectAsWickFile`. -/
def importProjectAsWickFile : List Effect :=
  [.showWaitOverlay, .delegate "Wick.WickFile.fromWickFile"]

/-- Effects of the `fromWickFile` callback of `importProjectAsWickFile`;
`projectLoaded` models the truthiness of the `project` the engine hands back
(`setupNewProject` is the source's project installation routine). -/
def importProjectAsWickFile_onProject (fileName : String) (projectLoaded : Bool) : List Effect :=
  if projectLoaded then
    [.delegate "setupNewProject",
     .toast ("Opened \"" ++ fileName ++ "\" successfully.") "success"]
  else
    [.toast "Could not open project." "error", .hideWaitOverlay]

/-- Effects of the `importFile` callback of `importFileAsAsset`;
`assetLoaded` models `asset === null` being false, and `hasCallback` whether
the optional user callback was supplied (it is invoked first either way). -/
def importFileAsAsset_onAsset (fileName : String) (hasCallback assetLoaded : Bool) : List Effect :=
  (if hasCallback then [.invokeCallback] else []) ++
    (if !assetLoaded then
      [.toast ("Could not add files to project: " ++ fileName) "error"]
    else
      [.toast ("Imported \"" ++ fileName ++ "\" successfully.") "success",
       .projectDidChange false "Import File As Asset"])

/-! ## `tryToParseProjectURL` (source lines 1211-1247) -/

/-- The hostname whitelist of `tryToParseProjectURL`. -/
def projectURLWhitelist : List String :=
  ["wickeditor.com", "editor.wickeditor.com", "test.wickeditor.com", "aka.ms"]

/-- Embedding of `tryToParseProjectURL`.  `urlParam` is the `project` query
parameter (`none` when absent); JavaScript's `if(!urlParam)` also treats the
empty string as absent.  `hostname` models the external `url-parse` library's
hostname extraction.  Returns the handler's boolean result and its effects
(the fetch happens only on the whitelisted path). -/
def tryToParseProjectURL (hostname : String → String) (urlParam : Option String) :
    Bool × List Effect :=
  match urlParam with
  | none => (false, [])
  | some s =>
      if s = "" then (false, [])
      else if projectURLWhitelist.contains (hostname s) = false then
        (false,
         [.toast "Could not open project from link! \n URL is not on whitelist." "warning",
          .consoleError "tryToParseProjectURL: URL is not in the whitelist."])
      else (true, [.fetchURL s])

/-! ## Tool handlers (source lines 44-61 and 164-179) -/

/-- Embedding of `setToolSetting`: writes the engine tool setting and fires
one change notification named after the setting and value. -/
def setToolSetting (settings : String → Int) (name : String) (value : Int) :
    (String → Int) × List Effect :=
  ((fun n => if n = name then value else settings n),
   [.projectDidChange false ("Change Tool Setting " ++ name ++ ":" ++ toString value)])

/-- Embedding of `changeBrushSize`: picks the option name from the active
tool (`brushSize` for `brush`, `eraserSize` for `eraser`, early return
otherwise) and bumps that setting by `amt` through `setToolSetting`. -/
def changeBrushSize (activeToolName : String) (settings : String → Int) (amt : Int) :
    (String → Int) × List Effect :=
  let option :=
    if activeToolName = "brush" then some "brushSize"
    else if activeToolName = "eraser" then some "eraserSize"
    else none
  match option with
  | none => (settings, [])
  | some opt => setToolSetting settings opt (settings opt + amt)

/-- The editor state touched by `setActiveTool`: the active tool's name, the
`lastUsedTool`, the brush modes popup (closed via `toggleBrushModes(false)`),
the eyedropper color handler it installs, and an opaque remainder `other`
standing for all other editor and project state. -/
structure EditorToolState (α : Type) where
  activeToolName : String
  lastUsedToolName : String
  brushModesOpen : Bool
  eyedropperHandlerSet : Bool
  other : α
deriving DecidableEq

/-- Embedding of `setActiveTool`: a strict no-op when `newTool` equals the
active tool's name; otherwise it remembers the previous tool in
`lastUsedTool`, installs the new tool, installs the eyedropper handler,
closes the brush modes popup, and fires one change notification. -/
def setActiveTool {α : Type} (st : EditorToolState α) (newTool : String) :
    EditorToolState α × List Effect :=
  if newTool ≠ st.activeToolName then
    ({ activeToolName := newTool,
       lastUsedToolName := st.activeToolName,
       brushModesOpen := false,
       eyedropperHandlerSet := true,
       other := st.other },
     [.projectDidChange false ("Set Active Tool: " ++ newTool)])
  else (st, [])

/-- Example tool settings map used to witness C9. -/
def exampleToolSettings : String → Int :=
  fun _ => 10

/-- Example editor tool state used to witness C10. -/
def exampleToolState : EditorToolState Unit :=
  { activeToolName := "brush"
    lastUsedToolName := "cursor"
    brushModesOpen := true
    eyedropperHandlerSet := false
    other := () }

/-- Example hostname extraction used to witness C8. -/
def exampleHostname : String → String :=
  fun _ => "wickeditor.com"

/-- Example selection map used to witness C1 at a concrete input. -/
def exampleSelection : String → JsValue :=
  fun n => if n = "opacity" then .arrV [.numV 3, .numV 5] else .undefinedV

/-- Example project field map used to witness C2. -/
def exampleProject : String → String :=
  fun k => if k = "width" then "720" else "default"

/-- Example settings object used to witness C2: changes `width`, carries an
invalid key `zoom`. -/
def exampleSettings : List (String × String) :=
  [("width", "1080"), ("zoom", "2")]

end WickEditor

namespace WickEditor

theorem settingsStep_snd_mono {V : Type} [DecidableEq V]
    (acc : (String → V) × Bool) (kv : String × V) (h : acc.2 = true) :
    (settingsStep acc kv).2 = true := by
  unfold settingsStep
  split
  · exact h
  · split
    · rfl
    · exact h

theorem foldl_settingsStep_snd_mono {V : Type} [DecidableEq V] :
    ∀ (l : List (String × V)) (acc : (String → V) × Bool), acc.2 = true →
      (l.foldl settingsStep acc).2 = true := by
  intro l
  induction l with
  | nil => intro acc h; exact h
  | cons kv rest ih =>
      intro acc h
      exact ih _ (settingsStep_snd_mono acc kv h)

theorem settingsStep_fst_invalid {V : Type} [DecidableEq V]
    (acc : (String → V) × Bool) (kv : String × V) (k : String)
    (hk : validKeys.contains k = false) :
    (settingsStep acc kv).1 k = acc.1 k := by
  unfold settingsStep
  split
  · rfl
  · rename_i hc
    split
    · have hne : k ≠ kv.1 := by
        intro he
        exact hc (he ▸ hk)
      simp [hne]
    · rfl

theorem foldl_settingsStep_fst_invalid {V : Type} [DecidableEq V] :
    ∀ (l : List (String × V)) (acc : (String → V) × Bool) (k : String),
      validKeys.contains k = false → (l.foldl settingsStep acc).1 k = acc.1 k := by
  intro l
  induction l with
  | nil => intro acc k _; rfl
  | cons kv rest ih =>
      intro acc k hk
      rw [List.foldl_cons, ih _ k hk, settingsStep_fst_invalid acc kv k hk]

theorem foldl_settingsStep_snd_any {V : Type} [DecidableEq V] :
    ∀ (l : List (String × V)) (p : String → V),
      (l.foldl settingsStep (p, false)).2 =
        l.any (fun kv => validKeys.contains kv.1 && kv.2 != p kv.1) := by
  intro l
  induction l with
  | nil => intro p; rfl
  | cons kv rest ih =>
      intro p
      rw [List.foldl_cons, List.any_cons]
      by_cases hc : validKeys.contains kv.1 = false
      · have hstep : settingsStep (p, false) kv = (p, false) := by
          unfold settingsStep
          rw [if_pos hc]
        rw [hstep, ih p, hc]
        simp
      · have hc' : validKeys.contains kv.1 = true := by
          simpa using hc
        by_cases hv : kv.2 = p kv.1
        · have hstep : settingsStep (p, false) kv = (p, false) := by
            unfold settingsStep
            rw [if_neg hc, if_neg (fun hne => hne hv.symm)]
          rw [hstep, ih p, hc', hv]
          simp
        · have hstep : (settingsStep (p, false) kv).2 = true := by
            unfold settingsStep
            rw [if_neg hc, if_pos (fun he => hv he.symm)]
          have hrest : (rest.foldl settingsStep (settingsStep (p, false) kv)).2 = true :=
            foldl_settingsStep_snd_mono rest _ hstep
          rw [hrest, hc', bne_iff_ne.mpr hv]
          simp

theorem foldl_settingsStep_nochange {V : Type} [DecidableEq V] :
    ∀ (l : List (String × V)) (p : String → V),
      (∀ kv ∈ l, validKeys.contains kv.1 = true → kv.2 = p kv.1) →
      l.foldl settingsStep (p, false) = (p, false) := by
  intro l
  induction l with
  | nil => intro p _; rfl
  | cons kv rest ih =>
      intro p h
      have hstep : settingsStep (p, false) kv = (p, false) := by
        unfold settingsStep
        by_cases hc : validKeys.contains kv.1 = false
        · rw [if_pos hc]
        · have hc' : validKeys.contains kv.1 = true := by simpa using hc
          have heq := h kv (List.mem_cons_self kv rest) hc'
          rw [if_neg hc, if_neg (fun hne => hne heq.symm)]
      rw [List.foldl_cons, hstep]
      exact ih p (fun kv' h' hc' => h kv' (List.mem_cons_of_mem kv h') hc')

end WickEditor

namespace WickEditor

/-- C1: `getSelectionAttribute` collapses an array-valued attribute to its
first element: an empty array yields `undefined`, a singleton yields its sole
element, an array of length ≥ 2 yields its first element, and a non-array
value is returned unchanged. -/
theorem getSelectionAttribute_first_element_wins
    (selection : String → JsValue) (name : String) :
    (selection name = .arrV [] → getSelectionAttribute selection name = .undefinedV)
    ∧ (∀ x, selection name = .arrV [x] → getSelectionAttribute selection name = x)
    ∧ (∀ x y rest, selection name = .arrV (x :: y :: rest) →
        getSelectionAttribute selection name = x)
    ∧ (∀ v, selection name = v → (∀ xs, v ≠ .arrV xs) →
        getSelectionAttribute selection name = v) := by
  refine ⟨?_, ?_, ?_, ?_⟩
  · intro h
    simp [getSelectionAttribute, h]
  · intro x h
    simp [getSelectionAttribute, h]
  · intro x y rest h
    simp [getSelectionAttribute, h]
  · intro v hv hna
    cases v with
    | arrV xs => exact absurd rfl (hna xs)
    | undefinedV => simp [getSelectionAttribute, hv]
    | boolV b => simp [getSelectionAttribute, hv]
    | numV n => simp [getSelectionAttribute, hv]
    | strV s => simp [getSelectionAttribute, hv]

/-- Witness for C1: on a selection whose `opacity` attribute is the two-element
array `[3, 5]`, the collapsed value is the first element `3`. -/
theorem getSelectionAttribute_first_element_wins_witness :
    getSelectionAttribute exampleSelection "opacity" = .numV 3 :=
  (getSelectionAttribute_first_element_wins exampleSelection "opacity").2.2.1
    (.numV 3) (.numV 5) [] rfl

/-- C3: `undoAction` and `redoAction` surface failure as a warning toast and
never propagate it: when the engine returns `false` the handler emits exactly
the corresponding warning toast and no change notification; when it returns
`true` the handler emits no toast and exactly one `projectDidChange` with
`skipHistory` set. -/
theorem undo_redo_toast_on_failure (b : Bool) :
    (b = false → undoAction b = [.toast "Nothing to undo." "warning"]
      ∧ ∀ s a, Effect.projectDidChange s a ∉ undoAction b)
    ∧ (b = true → undoAction b = [.projectDidChange true "Undo"]
      ∧ ∀ m k, Effect.toast m k ∉ undoAction b)
    ∧ (b = false → redoAction b = [.toast "Nothing to redo." "warning"]
      ∧ ∀ s a, Effect.projectDidChange s a ∉ redoAction b)
    ∧ (b = true → redoAction b = [.projectDidChange true "Redo"]
      ∧ ∀ m k, Effect.toast m k ∉ redoAction b) := by
  cases b <;> simp [undoAction, redoAction]

/-- Witness for C3: with a failing undo the handler emits exactly the
warning toast, and with a succeeding redo exactly the change notification. -/
theorem undo_redo_toast_on_failure_witness :
    undoAction false = [.toast "Nothing to undo." "warning"]
    ∧ redoAction true = [.projectDidChange true "Redo"] :=
  ⟨((undo_redo_toast_on_failure false).1 rfl).1,
   ((undo_redo_toast_on_failure true).2.2.2 rfl).1⟩

/-- C4: `createImageFromAsset` dispatches on the asset subtype: an
`ImageAsset` yields exactly `createImagePathFromAsset`, a `ClipAsset` exactly
`createClipInstanceFromAsset`, an `SVGAsset` exactly
`createSVGInstanceFromAsset`, and any other object yields no creation call
and a console error; the `Option` result makes at most one creation call per
invocation. -/
theorem createImageFromAsset_dispatch :
    createImageFromAsset .imageAsset = (some .createImagePathFromAsset, [])
    ∧ createImageFromAsset .clipAsset = (some .createClipInstanceFromAsset, [])
    ∧ createImageFromAsset .svgAsset = (some .createSVGInstanceFromAsset, [])
    ∧ createImageFromAsset .otherObject =
        (none, [.consoleError "object is not an ImageAsset or a ClipAsset"]) :=
  ⟨rfl, rfl, rfl, rfl⟩

/-- C2: `updateProjectSettings` is a settings diff: keys outside `validKeys`
(`name`, `width`, `height`, `backgroundColor`, `framerate`) are never
written, the `updated` flag — and hence the `projectDidChange` notification —
is raised exactly when some valid key's new value differs from the current
project value, and if no valid key differs the project map is left entirely
unchanged. -/
theorem updateProjectSettings_diff {V : Type} [DecidableEq V]
    (project : String → V) (newSettings : List (String × V)) :
    (∀ k, validKeys.contains k = false →
        (updateProjectSettings project newSettings).1 k = project k)
    ∧ ((updateProjectSettings project newSettings).2 = true ↔
        ∃ kv ∈ newSettings, validKeys.contains kv.1 = true ∧ kv.2 ≠ project kv.1)
    ∧ (Effect.projectDidChange false "Update Project Settings"
          ∈ updateProjectSettingsEffects project newSettings ↔
        ∃ kv ∈ newSettings, validKeys.contains kv.1 = true ∧ kv.2 ≠ project kv.1)
    ∧ ((∀ kv ∈ newSettings, validKeys.contains kv.1 = true → kv.2 = project kv.1) →
        (updateProjectSettings project newSettings).1 = project
        ∧ updateProjectSettingsEffects project newSettings = []) := by
  have hany := foldl_settingsStep_snd_any newSettings project
  have hiff : (updateProjectSettings project newSettings).2 = true ↔
      ∃ kv ∈ newSettings, validKeys.contains kv.1 = true ∧ kv.2 ≠ project kv.1 := by
    rw [updateProjectSettings, hany, List.any_eq_true]
    constructor
    · rintro ⟨kv, hmem, hp⟩
      rw [Bool.and_eq_true] at hp
      exact ⟨kv, hmem, hp.1, bne_iff_ne.mp hp.2⟩
    · rintro ⟨kv, hmem, hc, hv⟩
      exact ⟨kv, hmem, by rw [Bool.and_eq_true]; exact ⟨hc, bne_iff_ne.mpr hv⟩⟩
  refine ⟨?_, hiff, ?_, ?_⟩
  · intro k hk
    exact foldl_settingsStep_fst_invalid newSettings (project, false) k hk
  · rw [← hiff]
    unfold updateProjectSettingsEffects
    constructor
    · intro h
      by_contra hfalse
      rw [Bool.not_eq_true] at hfalse
      rw [hfalse] at h
      simp at h
    · intro h
      rw [h]
      simp
  · intro h
    have := foldl_settingsStep_nochange newSettings project h
    constructor
    · show (updateProjectSettings project newSettings).1 = project
      rw [updateProjectSettings, this]
    · unfold updateProjectSettingsEffects
      rw [updateProjectSettings, this]
      simp

/-- Witness for C2: the invalid key `zoom` is left unchanged, and the changed
`width` makes the `projectDidChange` notification fire. -/
theorem updateProjectSettings_diff_witness :
    (updateProjectSettings exampleProject exampleSettings).1 "zoom" = exampleProject "zoom"
    ∧ Effect.projectDidChange false "Update Project Settings"
        ∈ updateProjectSettingsEffects exampleProject exampleSettings :=
  ⟨(updateProjectSettings_diff exampleProject exampleSettings).1 "zoom" (by decide),
   (updateProjectSettings_diff exampleProject exampleSettings).2.2.1.mpr
     ⟨("width", "1080"), by decide, by decide, by decide⟩⟩

theorem string_append_assoc (a b c : String) : a ++ b ++ c = a ++ (b ++ c) := by
  apply String.ext
  simp [String.data_append, List.append_assoc]

/-- C5 counterexample: the standalone ZIP export handler — one of the export
orchestration sites the claim quantifies over — opens no modal at all, so it
is false that every one of the five media export handlers opens a modal. -/
theorem exportProjectAsStandaloneZip_opens_no_modal :
    opensAModal exportProjectAsStandaloneZip = false := by decide

/-- C5 amended: only four of the media export handlers (animated GIF, image
sequence, video, SVG) open the `ExportMedia` modal, delegate to their export
module, and show a success toast when the export completes; the standalone
ZIP handler delegates to its export module and shows a success toast on
completion but opens no modal. -/
theorem export_orchestration_four_modals (projectName ts outputName : String) :
    (Effect.openModal "ExportMedia" ∈ exportProjectAsAnimatedGIF
      ∧ Effect.delegate "GIFExport.createAnimatedGIFFromProject" ∈ exportProjectAsAnimatedGIF
      ∧ Effect.updateToast "success" "Successfully created .gif file."
          ∈ exportProjectAsAnimatedGIF_onFinish outputName)
    ∧ (Effect.openModal "ExportMedia" ∈ exportProjectAsImageSequence
      ∧ Effect.delegate "Wick.ImageSequence.toPNGSequence" ∈ exportProjectAsImageSequence
      ∧ Effect.updateToast "success" "Successfully created image sequence."
          ∈ exportProjectAsImageSequence_onFinish projectName)
    ∧ (Effect.openModal "ExportMedia" ∈ exportProjectAsVideo
      ∧ Effect.delegate "VideoExport.renderVideo" ∈ exportProjectAsVideo
      ∧ Effect.updateToast "success" "Successfully created .mp4 file."
          ∈ exportProjectAsVideo_onFinish)
    ∧ (Effect.openModal "ExportMedia" ∈ exportProjectAsImageSVG
      ∧ Effect.delegate "Wick.SVGFile.toSVGFile" ∈ exportProjectAsImageSVG
      ∧ Effect.updateToast "success" "Successfully saved .wick file."
          ∈ exportProjectAsImageSVG_onFile projectName ts)
    ∧ (opensAModal exportProjectAsStandaloneZip = false
      ∧ Effect.delegate "Wick.ZIPExport.bundleProject" ∈ exportProjectAsStandaloneZip
      ∧ Effect.updateToast "success" "Successfully created .zip file."
          ∈ exportProjectAsStandaloneZip_onBlob outputName) := by
  refine ⟨⟨?_, ?_, ?_⟩, ⟨?_, ?_, ?_⟩, ⟨?_, ?_, ?_⟩, ⟨?_, ?_, ?_⟩, ⟨?_, ?_, ?_⟩⟩
  · simp [exportProjectAsAnimatedGIF]
  · simp [exportProjectAsAnimatedGIF]
  · simp [exportProjectAsAnimatedGIF_onFinish]
  · simp [exportProjectAsImageSequence]
  · simp [exportProjectAsImageSequence]
  · simp [exportProjectAsImageSequence_onFinish]
  · simp [exportProjectAsVideo]
  · simp [exportProjectAsVideo]
  · simp [exportProjectAsVideo_onFinish]
  · simp [exportProjectAsImageSVG]
  · simp [exportProjectAsImageSVG]
  · simp [exportProjectAsImageSVG_onFile]
  · decide
  · simp [exportProjectAsStandaloneZip]
  · simp [exportProjectAsStandaloneZip_onBlob]

/-- C6: every filename an export handler passes to `saveAs` ends in one of
the eight extensions `.wick`, `.gif`, `.mp4`, `.svg`, `.zip`, `.html`,
`.wav`, `.wickobj` (the `.mp4` file is saved inside the external
`VideoExport` module, so the eight `saveAs` call sites of this file produce
the remaining seven extensions). -/
theorem export_saveAs_extensions (projectName ts outputName : String) (identifier : Option String) :
    (∀ f, Effect.saveAs f ∈ exportProjectAsWickFile_onFile projectName ts true →
      endsWithAnExportExtension f)
    ∧ (∀ f, Effect.saveAs f ∈ exportProjectAsAnimatedGIF_onFinish outputName →
      endsWithAnExportExtension f)
    ∧ (∀ f, Effect.saveAs f ∈ exportProjectAsImageSequence_onFinish projectName →
      endsWithAnExportExtension f)
    ∧ (∀ f, Effect.saveAs f ∈ exportProjectAsImageSVG_onFile projectName ts →
      endsWithAnExportExtension f)
    ∧ (∀ f, Effect.saveAs f ∈ exportProjectAsStandaloneZip_onBlob outputName →
      endsWithAnExportExtension f)
    ∧ (∀ f, Effect.saveAs f ∈ exportProjectAsStandaloneHTML_onHtml outputName →
      endsWithAnExportExtension f)
    ∧ (∀ f, Effect.saveAs f ∈ exportProjectAsAudioTrack_onResult →
      endsWithAnExportExtension f)
    ∧ (∀ f, Effect.saveAs f ∈ exportSelectedClip_onFile identifier →
      endsWithAnExportExtension f) := by
  refine ⟨?_, ?_, ?_, ?_, ?_, ?_, ?_, ?_⟩
  · intro f hf
    simp [exportProjectAsWickFile_onFile] at hf
    subst hf
    exact ⟨".wick", by simp [exportExtensions], projectName ++ ts, rfl⟩
  · intro f hf
    simp [exportProjectAsAnimatedGIF_onFinish] at hf
    subst hf
    exact ⟨".gif", by simp [exportExtensions], outputName, rfl⟩
  · intro f hf
    simp [exportProjectAsImageSequence_onFinish] at hf
    subst hf
    exact ⟨".zip", by simp [exportExtensions], projectName ++ "_imageSequence",
      by rw [string_append_assoc]; congr 1⟩
  · intro f hf
    simp [exportProjectAsImageSVG_onFile] at hf
    subst hf
    exact ⟨".svg", by simp [exportExtensions], projectName ++ ts, rfl⟩
  · intro f hf
    simp [exportProjectAsStandaloneZip_onBlob] at hf
    subst hf
    exact ⟨".zip", by simp [exportExtensions], outputName, rfl⟩
  · intro f hf
    simp [exportProjectAsStandaloneHTML_onHtml] at hf
    subst hf
    exact ⟨".html", by simp [exportExtensions], outputName, rfl⟩
  · intro f hf
    simp [exportProjectAsAudioTrack_onResult] at hf
    subst hf
    exact ⟨".wav", by simp [exportExtensions], "audiotrack", by decide⟩
  · intro f hf
    simp [exportSelectedClip_onFile] at hf
    subst hf
    exact ⟨".wickobj", by simp [exportExtensions], jsOr identifier "object", rfl⟩

/-- Witness for C6: the audio track export saves under a `.wav` filename. -/
theorem export_saveAs_extensions_witness :
    endsWithAnExportExtension "audiotrack.wav" :=
  (export_saveAs_extensions "p" "t" "o" none).2.2.2.2.2.2.1 "audiotrack.wav"
    (by simp [exportProjectAsAudioTrack_onResult])

/-- C7: import failures are swallowed as messages: when the wick-file engine
callback yields no project, exactly a `Could not open project.` error toast
is shown and the wait overlay is hidden; when the asset import callback
yields a null asset, exactly an error toast whose message starts with
`Could not add files to project` is shown (after the optional user callback)
and no change notification fires; neither failure trace contains any further
effect (no propagation, no retry). -/
theorem import_failures_swallowed (fileName : String) (hasCallback : Bool) :
    importProjectAsWickFile_onProject fileName false =
      [.toast "Could not open project." "error", .hideWaitOverlay]
    ∧ importFileAsAsset_onAsset fileName hasCallback false =
      (if hasCallback then [.invokeCallback] else []) ++
        [.toast ("Could not add files to project: " ++ fileName) "error"]
    ∧ (∀ s a, Effect.projectDidChange s a ∉ importFileAsAsset_onAsset fileName hasCallback false)
    ∧ (∃ rest, "Could not add files to project: " ++ fileName =
        "Could not add files to project" ++ rest) := by
  refine ⟨rfl, rfl, ?_, ?_⟩
  · intro s a h
    cases hasCallback <;> simp [importFileAsAsset_onAsset] at h
  · exact ⟨": " ++ fileName, by rw [← string_append_assoc]; congr 1⟩

/-- Witness for C7: at a concrete file, the failing wick-file import emits
exactly the error toast and overlay hiding, and the failing asset import
emits no change notification. -/
theorem import_failures_swallowed_witness :
    importProjectAsWickFile_onProject "p.wick" false =
      [.toast "Could not open project." "error", .hideWaitOverlay]
    ∧ Effect.projectDidChange false "Import File As Asset"
        ∉ importFileAsAsset_onAsset "p.wick" true false :=
  ⟨(import_failures_swallowed "p.wick" true).1,
   (import_failures_swallowed "p.wick" true).2.2.1 false "Import File As Asset"⟩

/-- C8: `tryToParseProjectURL` fetches only from whitelisted hosts: with no
`project` parameter (or the falsy empty parameter) it returns `false` with no
effects; with a parameter whose parsed hostname is not whitelisted it returns
`false`, shows a warning toast and does not fetch; with a whitelisted
hostname it returns `true` and fetches; and it returns `true` exactly when a
(non-empty) `project` parameter with a whitelisted hostname was found. -/
theorem tryToParseProjectURL_whitelist (hostname : String → String) (urlParam : Option String) :
    tryToParseProjectURL hostname none = (false, [])
    ∧ tryToParseProjectURL hostname (some "") = (false, [])
    ∧ (∀ s, s ≠ "" → projectURLWhitelist.contains (hostname s) = false →
        tryToParseProjectURL hostname (some s) =
          (false,
           [.toast "Could not open project from link! \n URL is not on whitelist." "warning",
            .consoleError "tryToParseProjectURL: URL is not in the whitelist."]))
    ∧ (∀ s, s ≠ "" → projectURLWhitelist.contains (hostname s) = true →
        tryToParseProjectURL hostname (some s) = (true, [.fetchURL s]))
    ∧ ((tryToParseProjectURL hostname urlParam).1 = true ↔
        ∃ s, urlParam = some s ∧ s ≠ ""
          ∧ projectURLWhitelist.contains (hostname s) = true) := by
  refine ⟨rfl, rfl, ?_, ?_, ?_⟩
  · intro s hs hc
    have hm : hostname s ∉ projectURLWhitelist := by simpa using hc
    simp [tryToParseProjectURL, hs, hm]
  · intro s hs hc
    have hm : hostname s ∈ projectURLWhitelist := by simpa using hc
    simp [tryToParseProjectURL, hs, hm]
  · cases urlParam with
    | none => simp [tryToParseProjectURL]
    | some s =>
        by_cases hs : s = ""
        · subst hs
          simp [tryToParseProjectURL]
        · by_cases hc : hostname s ∈ projectURLWhitelist
          · simp [tryToParseProjectURL, hs, hc]
          · simp [tryToParseProjectURL, hs, hc]

/-- Witness for C8: a concrete wickeditor.com project link is accepted and
fetched. -/
theorem tryToParseProjectURL_whitelist_witness :
    tryToParseProjectURL exampleHostname (some "https://wickeditor.com/p.wick") =
      (true, [.fetchURL "https://wickeditor.com/p.wick"]) :=
  (tryToParseProjectURL_whitelist exampleHostname
      (some "https://wickeditor.com/p.wick")).2.2.2.1
    "https://wickeditor.com/p.wick" (by decide) (by decide)

/-- C9: `changeBrushSize` changes at most one tool setting: with an active
tool other than `brush` or `eraser` it returns with the settings untouched
and no notification; with `brush` (resp. `eraser`) only the `brushSize`
(resp. `eraserSize`) setting changes, to its previous value plus `amt`. -/
theorem changeBrushSize_at_most_one_setting
    (tool : String) (settings : String → Int) (amt : Int) :
    (tool ≠ "brush" → tool ≠ "eraser" → changeBrushSize tool settings amt = (settings, []))
    ∧ ((changeBrushSize "brush" settings amt).1 "brushSize" = settings "brushSize" + amt
      ∧ (∀ k, k ≠ "brushSize" → (changeBrushSize "brush" settings amt).1 k = settings k))
    ∧ ((changeBrushSize "eraser" settings amt).1 "eraserSize" = settings "eraserSize" + amt
      ∧ (∀ k, k ≠ "eraserSize" → (changeBrushSize "eraser" settings amt).1 k = settings k)) := by
  refine ⟨?_, ⟨?_, ?_⟩, ⟨?_, ?_⟩⟩
  · intro h1 h2
    simp [changeBrushSize, h1, h2]
  · simp [changeBrushSize, setToolSetting]
  · intro k hk
    simp [changeBrushSize, setToolSetting, hk]
  · simp [changeBrushSize, setToolSetting]
  · intro k hk
    simp [changeBrushSize, setToolSetting, hk]

/-- Witness for C9: with a cursor tool nothing changes; with the brush tool
the brush size grows by the amount. -/
theorem changeBrushSize_at_most_one_setting_witness :
    changeBrushSize "cursor" exampleToolSettings 2 = (exampleToolSettings, [])
    ∧ (changeBrushSize "brush" exampleToolSettings 2).1 "brushSize"
        = exampleToolSettings "brushSize" + 2 :=
  ⟨(changeBrushSize_at_most_one_setting "cursor" exampleToolSettings 2).1
      (by decide) (by decide),
   (changeBrushSize_at_most_one_setting "cursor" exampleToolSettings 2).2.1.1⟩

/-- C10: `setActiveTool` is a no-op (state and effects) when the requested
tool is already active; otherwise `lastUsedTool` becomes the previously
active tool, the active tool becomes `newTool`, the opaque remainder of the
state is untouched, and exactly one change notification fires. -/
theorem setActiveTool_noop_when_same {α : Type} (st : EditorToolState α) (newTool : String) :
    (newTool = st.activeToolName → setActiveTool st newTool = (st, []))
    ∧ (newTool ≠ st.activeToolName →
        (setActiveTool st newTool).1.activeToolName = newTool
        ∧ (setActiveTool st newTool).1.lastUsedToolName = st.activeToolName
        ∧ (setActiveTool st newTool).1.other = st.other
        ∧ (setActiveTool st newTool).2 =
            [.projectDidChange false ("Set Active Tool: " ++ newTool)]) := by
  constructor
  · intro h
    simp [setActiveTool, h]
  · intro h
    refine ⟨?_, ?_, ?_, ?_⟩ <;> simp [setActiveTool, h]

/-- Witness for C10: re-selecting the active brush tool is a strict no-op,
and switching to the pencil remembers the brush as the last used tool. -/
theorem setActiveTool_noop_when_same_witness :
    setActiveTool exampleToolState "brush" = (exampleToolState, [])
    ∧ (setActiveTool exampleToolState "pencil").1.lastUsedToolName
        = exampleToolState.activeToolName :=
  ⟨(setActiveTool_noop_when_same exampleToolState "brush").1 (by decide),
   ((setActiveTool_noop_when_same exampleToolState "pencil").2 (by decide)).2.1⟩

end WickEditor
